import Mathlib

/-!
Verification of the time-boxed response cache embedded in the weather
dashboard API client (`src/weather_dashboard/weather_api.py`, class
`WeatherAPI`).

Embedding conventions:
* The Python `dict` held in `self.cache` is embedded as an association
  list over `String` keys with overwrite-in-place assignment semantics
  (`dictInsert`), matching `self.cache[k] = v` on a Python dict: an
  existing binding for the key is replaced at its position, otherwise
  the new binding is appended.
* `datetime.now()` is embedded as an explicit integer timestamp (in
  seconds) passed to each operation; `(current_time - cached_time)
  .total_seconds()` becomes integer subtraction.
* The network call `_make_request` together with the subsequent parsing
  block is embedded as an `Option α` argument `fetch`: `none` models a
  failed request (the source check `if not data: return None`), `some v`
  models a successfully fetched and parsed payload `v`. The payload type
  `α` is opaque, as the cache stores and returns it unchanged.
* Each cache-consulting operation returns, besides its result and the
  updated object state, a `Bool` recording whether the fetch was
  performed, so that "invokes the fetch function" is a statable
  proposition.
-/

/-- Char-wise lowercasing, modelling the Python method `str.lower()` as it acts
on the ASCII city strings used by the source (`city.lower()`). -/
def pyLower (s : String) : String := ⟨s.data.map Char.toLower⟩

/-- One cache slot: the stored dict with a data field and a timestamp
field, as written by `get_current_weather` and `get_forecast`. -/
structure CacheEntry (α : Type) where
  data : α
  timestamp : Int
deriving Repr, DecidableEq

/-- Lookup of a key in a Python dict embedded as an association list
(`self.cache[cache_key]`, `cache_key in self.cache`). -/
def dictGet {β : Type} (k : String) : List (String × β) → Option β
  | [] => none
  | (k1, v1) :: rest => if k1 = k then some v1 else dictGet k rest

/-- Assignment `d[k] = v` on a Python dict embedded as an association
list: an existing binding for `k` is overwritten in place, otherwise the
binding is appended at the end. -/
def dictInsert {β : Type} (k : String) (v : β) :
    List (String × β) → List (String × β)
  | [] => [(k, v)]
  | (k1, v1) :: rest =>
    if k1 = k then (k, v) :: rest else (k1, v1) :: dictInsert k v rest

/-- State of a `WeatherAPI` instance: the fields set by `__init__`. -/
structure WeatherAPI (α : Type) where
  api_key : String
  base_url : String
  cache : List (String × CacheEntry α)
  cache_duration : Int
deriving Repr, DecidableEq

namespace WeatherAPI

/-- `WeatherAPI.__init__(self, api_key)`: stores the API key and the
base URL, starts with an empty cache, and fixes `cache_duration = 600`
(10 minutes in seconds). -/
def init (α : Type) (api_key : String) : WeatherAPI α :=
  { api_key := api_key
    base_url := "http://api.openweathermap.org/data/2.5"
    cache := []
    cache_duration := 600 }

/-- `WeatherAPI._is_cache_valid(self, cache_key)`: false when the key is
absent; otherwise compares the elapsed time against `cache_duration`
with a strict `<`. -/
def is_cache_valid {α : Type} (s : WeatherAPI α) (now : Int)
    (cache_key : String) : Bool :=
  match dictGet cache_key s.cache with
  | none => false
  | some e => decide (now - e.timestamp < s.cache_duration)

/-- `WeatherAPI.get_current_weather(self, city)`: builds the cache key
`current_` catenated with the lower-cased city; serves the cached
payload when
`_is_cache_valid` holds; otherwise performs the fetch (`_make_request`
plus parsing, embedded as the `fetch` argument), returning `None` and
leaving the cache untouched on failure, and storing
the dict holding `weather_info` and the capture time on success. The
third
component records whether the fetch was performed. -/
def get_current_weather {α : Type} (s : WeatherAPI α) (now : Int)
    (city : String) (fetch : Option α) : Option α × WeatherAPI α × Bool :=
  let cache_key := "current_" ++ pyLower city
  if s.is_cache_valid now cache_key then
    ((dictGet cache_key s.cache).map CacheEntry.data, s, false)
  else
    match fetch with
    | none => (none, s, true)
    | some weather_info =>
      (some weather_info,
        { s with cache := dictInsert cache_key ⟨weather_info, now⟩ s.cache },
        true)

/-- `WeatherAPI.get_forecast(self, city)`: identical cache discipline to
`get_current_weather` with cache key `forecast_` catenated with the
lower-cased city; the
forecast post-processing loop only shapes the fetched payload, which the
embedding keeps opaque. -/
def get_forecast {α : Type} (s : WeatherAPI α) (now : Int)
    (city : String) (fetch : Option α) : Option α × WeatherAPI α × Bool :=
  let cache_key := "forecast_" ++ pyLower city
  if s.is_cache_valid now cache_key then
    ((dictGet cache_key s.cache).map CacheEntry.data, s, false)
  else
    match fetch with
    | none => (none, s, true)
    | some forecast_info =>
      (some forecast_info,
        { s with cache := dictInsert cache_key ⟨forecast_info, now⟩ s.cache },
        true)

/-- `WeatherAPI.clear_cache(self)`: `self.cache = {}`. -/
def clear_cache {α : Type} (s : WeatherAPI α) : WeatherAPI α :=
  { s with cache := [] }

/-- The methods defined on the `WeatherAPI` class in
`src/weather_dashboard/weather_api.py`, in source order. -/
def methodNames : List String :=
  ["__init__", "_make_request", "_is_cache_valid",
   "get_current_weather", "get_forecast", "clear_cache"]

end WeatherAPI

/-- Two strings are case variants when they have the same length and
their characters agree up to `Char.toLower`. -/
def caseVariantChars : List Char → List Char → Bool
  | [], [] => true
  | a :: as, b :: bs => a.toLower == b.toLower && caseVariantChars as bs
  | _, _ => false

/-- Two strings differing only in letter case. -/
def caseVariant (a b : String) : Bool := caseVariantChars a.data b.data

/-! ### Basic lemmas about the embedded dict -/

theorem dictGet_insert_self {β : Type} (k : String) (v : β)
    (l : List (String × β)) : dictGet k (dictInsert k v l) = some v := by
  induction l with
  | nil => simp [dictInsert, dictGet]
  | cons hd tl ih =>
    obtain ⟨k1, v1⟩ := hd
    by_cases h : k1 = k
    · simp [dictInsert, h, dictGet]
    · simp [dictInsert, h, dictGet, ih]

theorem dictGet_insert_ne {β : Type} {k k2 : String} (v : β)
    (l : List (String × β)) (h : k2 ≠ k) :
    dictGet k2 (dictInsert k v l) = dictGet k2 l := by
  have hk : ¬ k = k2 := fun h2 => h h2.symm
  induction l with
  | nil => simp [dictInsert, dictGet, hk]
  | cons hd tl ih =>
    obtain ⟨k1, v1⟩ := hd
    by_cases h1 : k1 = k
    · subst h1
      simp [dictInsert, dictGet, hk]
    · simp [dictInsert, h1, dictGet, ih]

theorem mem_keys_insert {β : Type} {a k : String} (v : β)
    (l : List (String × β)) :
    a ∈ (dictInsert k v l).map Prod.fst ↔ a ∈ l.map Prod.fst ∨ a = k := by
  induction l with
  | nil => simp [dictInsert]
  | cons hd tl ih =>
    obtain ⟨k1, v1⟩ := hd
    by_cases h1 : k1 = k
    · subst h1
      simp [dictInsert]
      tauto
    · simp only [dictInsert, if_neg h1, List.map_cons, List.mem_cons, ih]
      tauto

theorem nodup_keys_insert {β : Type} {k : String} (v : β)
    {l : List (String × β)} (h : (l.map Prod.fst).Nodup) :
    ((dictInsert k v l).map Prod.fst).Nodup := by
  induction l with
  | nil => simp [dictInsert]
  | cons hd tl ih =>
    obtain ⟨k1, v1⟩ := hd
    simp only [List.map_cons, List.nodup_cons] at h
    by_cases h1 : k1 = k
    · subst h1
      simpa [dictInsert] using h
    · simp only [dictInsert, if_neg h1, List.map_cons, List.nodup_cons,
        mem_keys_insert]
      exact ⟨by tauto, ih h.2⟩

theorem dictGet_eq_none_of_not_mem {β : Type} {k : String}
    {l : List (String × β)} (h : k ∉ l.map Prod.fst) :
    dictGet k l = none := by
  induction l with
  | nil => rfl
  | cons hd tl ih =>
    obtain ⟨k1, v1⟩ := hd
    simp only [List.map_cons, List.mem_cons] at h
    push_neg at h
    have h1 : ¬ k1 = k := fun h2 => h.1 h2.symm
    simp [dictGet, h1, ih h.2]

/-! ### Behavior of the cache-consulting operations -/

theorem is_cache_valid_iff {α : Type} (s : WeatherAPI α) (now : Int)
    (k : String) :
    s.is_cache_valid now k = true ↔
      ∃ e, dictGet k s.cache = some e ∧ now - e.timestamp < s.cache_duration := by
  unfold WeatherAPI.is_cache_valid
  cases hg : dictGet k s.cache with
  | none => simp
  | some e => simp [hg]

theorem is_cache_valid_of_fresh {α : Type} {s : WeatherAPI α} {now : Int}
    {k : String} {e : CacheEntry α} (hget : dictGet k s.cache = some e)
    (hfresh : now - e.timestamp < s.cache_duration) :
    s.is_cache_valid now k = true := by
  unfold WeatherAPI.is_cache_valid
  simp [hget, hfresh]

theorem is_cache_valid_eq_false_of_expired {α : Type} {s : WeatherAPI α}
    {now : Int} {k : String} {e : CacheEntry α}
    (hget : dictGet k s.cache = some e)
    (hexp : s.cache_duration ≤ now - e.timestamp) :
    s.is_cache_valid now k = false := by
  unfold WeatherAPI.is_cache_valid
  simp [hget]
  omega

theorem is_cache_valid_eq_false_of_none {α : Type} {s : WeatherAPI α}
    {now : Int} {k : String} (hget : dictGet k s.cache = none) :
    s.is_cache_valid now k = false := by
  unfold WeatherAPI.is_cache_valid
  simp [hget]

theorem get_current_weather_hit {α : Type} {s : WeatherAPI α} {now : Int}
    {city : String} {e : CacheEntry α} (fetch : Option α)
    (hget : dictGet ("current_" ++ pyLower city) s.cache = some e)
    (hfresh : now - e.timestamp < s.cache_duration) :
    s.get_current_weather now city fetch = (some e.data, s, false) := by
  unfold WeatherAPI.get_current_weather
  simp [is_cache_valid_of_fresh hget hfresh, hget]

theorem get_current_weather_miss_none {α : Type} {s : WeatherAPI α}
    {now : Int} {city : String}
    (hmiss : s.is_cache_valid now ("current_" ++ pyLower city) = false) :
    s.get_current_weather now city none = (none, s, true) := by
  unfold WeatherAPI.get_current_weather
  simp [hmiss]

theorem get_current_weather_miss_some {α : Type} {s : WeatherAPI α}
    {now : Int} {city : String} (v : α)
    (hmiss : s.is_cache_valid now ("current_" ++ pyLower city) = false) :
    s.get_current_weather now city (some v) =
      (some v,
        { s with cache :=
            dictInsert ("current_" ++ pyLower city) ⟨v, now⟩ s.cache },
        true) := by
  unfold WeatherAPI.get_current_weather
  simp [hmiss]

theorem get_forecast_hit {α : Type} {s : WeatherAPI α} {now : Int}
    {city : String} {e : CacheEntry α} (fetch : Option α)
    (hget : dictGet ("forecast_" ++ pyLower city) s.cache = some e)
    (hfresh : now - e.timestamp < s.cache_duration) :
    s.get_forecast now city fetch = (some e.data, s, false) := by
  unfold WeatherAPI.get_forecast
  simp [is_cache_valid_of_fresh hget hfresh, hget]

theorem get_forecast_miss_none {α : Type} {s : WeatherAPI α}
    {now : Int} {city : String}
    (hmiss : s.is_cache_valid now ("forecast_" ++ pyLower city) = false) :
    s.get_forecast now city none = (none, s, true) := by
  unfold WeatherAPI.get_forecast
  simp [hmiss]

theorem get_forecast_miss_some {α : Type} {s : WeatherAPI α}
    {now : Int} {city : String} (v : α)
    (hmiss : s.is_cache_valid now ("forecast_" ++ pyLower city) = false) :
    s.get_forecast now city (some v) =
      (some v,
        { s with cache :=
            dictInsert ("forecast_" ++ pyLower city) ⟨v, now⟩ s.cache },
        true) := by
  unfold WeatherAPI.get_forecast
  simp [hmiss]

theorem get_current_weather_fetches_of_invalid {α : Type} {s : WeatherAPI α}
    {now : Int} {city : String} (fetch : Option α)
    (hmiss : s.is_cache_valid now ("current_" ++ pyLower city) = false) :
    (s.get_current_weather now city fetch).2.2 = true := by
  cases fetch with
  | none => simp [get_current_weather_miss_none hmiss]
  | some v => simp [get_current_weather_miss_some v hmiss]

theorem get_forecast_fetches_of_invalid {α : Type} {s : WeatherAPI α}
    {now : Int} {city : String} (fetch : Option α)
    (hmiss : s.is_cache_valid now ("forecast_" ++ pyLower city) = false) :
    (s.get_forecast now city fetch).2.2 = true := by
  cases fetch with
  | none => simp [get_forecast_miss_none hmiss]
  | some v => simp [get_forecast_miss_some v hmiss]

theorem get_current_weather_state_cases {α : Type} (s : WeatherAPI α)
    (now : Int) (city : String) (fetch : Option α) :
    (s.get_current_weather now city fetch).2.1 = s ∨
      ∃ v, fetch = some v ∧
        (s.get_current_weather now city fetch).2.1 =
          { s with cache :=
              dictInsert ("current_" ++ pyLower city) ⟨v, now⟩ s.cache } := by
  unfold WeatherAPI.get_current_weather
  cases hv : s.is_cache_valid now ("current_" ++ pyLower city) with
  | true => simp [hv]
  | false =>
    cases fetch with
    | none => simp [hv]
    | some v => simp [hv]

theorem get_forecast_state_cases {α : Type} (s : WeatherAPI α)
    (now : Int) (city : String) (fetch : Option α) :
    (s.get_forecast now city fetch).2.1 = s ∨
      ∃ v, fetch = some v ∧
        (s.get_forecast now city fetch).2.1 =
          { s with cache :=
              dictInsert ("forecast_" ++ pyLower city) ⟨v, now⟩ s.cache } := by
  unfold WeatherAPI.get_forecast
  cases hv : s.is_cache_valid now ("forecast_" ++ pyLower city) with
  | true => simp [hv]
  | false =>
    cases fetch with
    | none => simp [hv]
    | some v => simp [hv]

theorem caseVariantChars_toLower_eq : ∀ (as bs : List Char),
    caseVariantChars as bs = true →
      as.map Char.toLower = bs.map Char.toLower := by
  intro as
  induction as with
  | nil =>
    intro bs h
    cases bs with
    | nil => rfl
    | cons b bs => simp [caseVariantChars] at h
  | cons a as ih =>
    intro bs h
    cases bs with
    | nil => simp [caseVariantChars] at h
    | cons b bs =>
      simp only [caseVariantChars, Bool.and_eq_true, beq_iff_eq] at h
      simp [List.map_cons, h.1, ih bs h.2]

theorem pyLower_eq_of_caseVariant {a b : String}
    (h : caseVariant a b = true) : pyLower a = pyLower b :=
  congrArg String.mk (caseVariantChars_toLower_eq a.data b.data h)

theorem get_current_weather_hit_pair {α : Type} {s : WeatherAPI α}
    {now t : Int} {city : String} {v : α} (fetch : Option α)
    (hget : dictGet ("current_" ++ pyLower city) s.cache = some ⟨v, t⟩)
    (hfresh : now - t < s.cache_duration) :
    s.get_current_weather now city fetch = (some v, s, false) :=
  get_current_weather_hit fetch hget hfresh

theorem get_forecast_hit_pair {α : Type} {s : WeatherAPI α}
    {now t : Int} {city : String} {v : α} (fetch : Option α)
    (hget : dictGet ("forecast_" ++ pyLower city) s.cache = some ⟨v, t⟩)
    (hfresh : now - t < s.cache_duration) :
    s.get_forecast now city fetch = (some v, s, false) :=
  get_forecast_hit fetch hget hfresh

theorem timestamp_mono_of_insert {α : Type} {l : List (String × CacheEntry α)}
    {key k : String} {now : Int} {v : α} {e e2 : CacheEntry α}
    (hget : dictGet k l = some e) (hts : e.timestamp ≤ now)
    (h2 : dictGet k (dictInsert key ⟨v, now⟩ l) = some e2) :
    e.timestamp ≤ e2.timestamp := by
  by_cases hk : k = key
  · subst hk
    rw [dictGet_insert_self] at h2
    cases h2
    exact hts
  · rw [dictGet_insert_ne _ _ hk, hget] at h2
    cases h2
    exact le_refl _

/-! ### The claims -/

/-- C1: a call to `get_current_weather` (resp. `get_forecast`) that
performs a successful fetch at time `t0`, immediately followed by a
second call for the same city at time `t1` still within the freshness
window, returns the fetched value on both calls, does not invoke the
fetch function on the second call, and the second call leaves the state
unchanged. -/
theorem C1_second_call_within_window_uses_cache {α : Type}
    (s : WeatherAPI α) (t0 t1 : Int) (city : String) (v : α)
    (fetch2 : Option α)
    (hmissC : s.is_cache_valid t0 ("current_" ++ pyLower city) = false)
    (hmissF : s.is_cache_valid t0 ("forecast_" ++ pyLower city) = false)
    (h0 : t0 ≤ t1) (h1 : t1 - t0 < s.cache_duration) :
    (s.get_current_weather t0 city (some v)).1 = some v ∧
    (s.get_current_weather t0 city (some v)).2.1.get_current_weather t1 city
        fetch2 =
      (some v, (s.get_current_weather t0 city (some v)).2.1, false) ∧
    (s.get_forecast t0 city (some v)).1 = some v ∧
    (s.get_forecast t0 city (some v)).2.1.get_forecast t1 city fetch2 =
      (some v, (s.get_forecast t0 city (some v)).2.1, false) := by
  rw [get_current_weather_miss_some v hmissC, get_forecast_miss_some v hmissF]
  refine ⟨rfl, ?_, rfl, ?_⟩
  · exact get_current_weather_hit_pair fetch2 (dictGet_insert_self _ _ _) h1
  · exact get_forecast_hit_pair fetch2 (dictGet_insert_self _ _ _) h1

/-- C2: when the cached entry for the key of `city` is at least
`cache_duration` seconds old, `get_current_weather` invokes the fetch
function again instead of serving the cached value. -/
theorem C2_expired_entry_refetches {α : Type} (s : WeatherAPI α)
    (now : Int) (city : String) (e : CacheEntry α) (fetch : Option α)
    (hget : dictGet ("current_" ++ pyLower city) s.cache = some e)
    (hexp : s.cache_duration ≤ now - e.timestamp) :
    (s.get_current_weather now city fetch).2.2 = true :=
  get_current_weather_fetches_of_invalid fetch
    (is_cache_valid_eq_false_of_expired hget hexp)

/-- C3: when no fresh cache entry is available and the fetch fails,
`get_current_weather` returns `none` and the object state, the cache
included, is exactly the state before the call: no entry is updated. -/
theorem C3_fetch_failure_returns_none_and_preserves_cache {α : Type}
    (s : WeatherAPI α) (now : Int) (city : String)
    (hmiss : s.is_cache_valid now ("current_" ++ pyLower city) = false) :
    s.get_current_weather now city none = (none, s, true) :=
  get_current_weather_miss_none hmiss

/-- C4 counterexample: the `WeatherAPI` class defines no `invalidate`
method at all; its methods are exactly the six listed in
`methodNames`. -/
theorem C4_counterexample_no_invalidate_method :
    "invalidate" ∉ WeatherAPI.methodNames := by decide

/-- C4 (amended): the class provides no per-key `invalidate` operation
(the only removal operation is `clear_cache`); nevertheless, whenever the
cache holds no entry for the key of `city` — as after any removal —
`get_current_weather` invokes the fetch function. -/
theorem C4_amended_absent_key_invokes_fetch {α : Type} (s : WeatherAPI α)
    (now : Int) (city : String) (fetch : Option α)
    (hget : dictGet ("current_" ++ pyLower city) s.cache = none) :
    (s.get_current_weather now city fetch).2.2 = true :=
  get_current_weather_fetches_of_invalid fetch
    (is_cache_valid_eq_false_of_none hget)

/-- C5: `clear_cache` removes all entries: afterwards every lookup
finds nothing and both `get_current_weather` and `get_forecast` invoke
the fetch function for any city. -/
theorem C5_clear_cache_empties_and_forces_fetch {α : Type}
    (s : WeatherAPI α) (now : Int) (city : String) (fetch : Option α) :
    (∀ k, dictGet k s.clear_cache.cache = none) ∧
    (s.clear_cache.get_current_weather now city fetch).2.2 = true ∧
    (s.clear_cache.get_forecast now city fetch).2.2 = true := by
  refine ⟨fun k => rfl, ?_, ?_⟩
  · exact get_current_weather_fetches_of_invalid fetch
      (is_cache_valid_eq_false_of_none rfl)
  · exact get_forecast_fetches_of_invalid fetch
      (is_cache_valid_eq_false_of_none rfl)

/-- C6: both refresh operations overwrite an entry in place — distinct
keys stay distinct, so the mapping never holds two entries for one key —
and for any key the stored timestamp never decreases across a call, the
clock being at or past the stored capture time. -/
theorem C6_refresh_overwrites_in_place_and_timestamp_monotone {α : Type}
    (s : WeatherAPI α) (now : Int) (city k : String)
    (e e2 e3 : CacheEntry α) (fetch : Option α)
    (hnd : (s.cache.map Prod.fst).Nodup)
    (hget : dictGet k s.cache = some e)
    (hts : e.timestamp ≤ now)
    (h2 : dictGet k (s.get_current_weather now city fetch).2.1.cache = some e2)
    (h3 : dictGet k (s.get_forecast now city fetch).2.1.cache = some e3) :
    ((s.get_current_weather now city fetch).2.1.cache.map Prod.fst).Nodup ∧
    ((s.get_forecast now city fetch).2.1.cache.map Prod.fst).Nodup ∧
    e.timestamp ≤ e2.timestamp ∧ e.timestamp ≤ e3.timestamp := by
  rcases get_current_weather_state_cases s now city fetch with hc | ⟨v, hv, hc⟩ <;>
    rcases get_forecast_state_cases s now city fetch with hf | ⟨w, hw, hf⟩ <;>
      rw [hc] at h2 ⊢ <;> rw [hf] at h3 ⊢
  · rw [hget] at h2 h3
    cases h2
    cases h3
    exact ⟨hnd, hnd, le_refl _, le_refl _⟩
  · rw [hget] at h2
    cases h2
    exact ⟨hnd, nodup_keys_insert _ hnd, le_refl _,
      timestamp_mono_of_insert hget hts h3⟩
  · rw [hget] at h3
    cases h3
    exact ⟨nodup_keys_insert _ hnd, hnd,
      timestamp_mono_of_insert hget hts h2, le_refl _⟩
  · exact ⟨nodup_keys_insert _ hnd, nodup_keys_insert _ hnd,
      timestamp_mono_of_insert hget hts h2,
      timestamp_mono_of_insert hget hts h3⟩

/-- C7 counterexample: cache keys do not normalize surrounding
whitespace. Caching the city "Paris" and then asking for " Paris" at the
same instant builds a different key, so the second call invokes the
fetch function and returns its fresh value instead of the cached one. -/
theorem C7_counterexample_whitespace_variant_misses :
    ("current_" ++ pyLower "Paris" ≠ "current_" ++ pyLower " Paris") ∧
    (((WeatherAPI.init Nat "k").get_current_weather 0 "Paris"
        (some 1)).2.1.get_current_weather 0 " Paris" (some 2)).2.2 = true ∧
    (((WeatherAPI.init Nat "k").get_current_weather 0 "Paris"
        (some 1)).2.1.get_current_weather 0 " Paris" (some 2)).1 =
      some 2 := by
  refine ⟨by decide, rfl, rfl⟩

/-- C7 (amended): cache keys are built as the request kind catenated
with the lower-cased city, so two city strings differing only in letter
case — but not in surrounding whitespace — collide to the same cache
slot: a fetching call for `c` followed within the window by a call for a
case variant `c2` serves the cached value without invoking the fetch
function. -/
theorem C7_amended_case_variants_share_slot {α : Type} (s : WeatherAPI α)
    (t0 t1 : Int) (c c2 : String) (v : α) (fetch2 : Option α)
    (hvar : caseVariant c c2 = true)
    (hmiss : s.is_cache_valid t0 ("current_" ++ pyLower c) = false)
    (h1 : t1 - t0 < s.cache_duration) :
    ("current_" ++ pyLower c = "current_" ++ pyLower c2) ∧
    (s.get_current_weather t0 c (some v)).2.1.get_current_weather t1 c2
        fetch2 =
      (some v, (s.get_current_weather t0 c (some v)).2.1, false) := by
  have hkey : "current_" ++ pyLower c = "current_" ++ pyLower c2 :=
    congrArg ("current_" ++ ·) (pyLower_eq_of_caseVariant hvar)
  refine ⟨hkey, ?_⟩
  rw [get_current_weather_miss_some v hmiss]
  refine get_current_weather_hit_pair fetch2 ?_ h1
  rw [← hkey]
  exact dictGet_insert_self _ _ _

/-- C8: the freshness window is fixed when the object is constructed —
`__init__` sets it to 600 seconds — no operation mutates it, and the
validity judgment compares every entry against that same single
duration. -/
theorem C8_window_fixed_at_construction {α : Type} (api_key : String)
    (s : WeatherAPI α) (now : Int) (city k : String) (fetch : Option α) :
    (WeatherAPI.init α api_key).cache_duration = 600 ∧
    (s.get_current_weather now city fetch).2.1.cache_duration =
      s.cache_duration ∧
    (s.get_forecast now city fetch).2.1.cache_duration = s.cache_duration ∧
    s.clear_cache.cache_duration = s.cache_duration ∧
    (s.is_cache_valid now k = true ↔
      ∃ e, dictGet k s.cache = some e ∧
        now - e.timestamp < s.cache_duration) := by
  refine ⟨rfl, ?_, ?_, rfl, is_cache_valid_iff s now k⟩
  · rcases get_current_weather_state_cases s now city fetch with h | ⟨v, hv, h⟩ <;>
      rw [h]
  · rcases get_forecast_state_cases s now city fetch with h | ⟨v, hv, h⟩ <;>
      rw [h]

/-- C9: at the exact window boundary — elapsed time equal to
`cache_duration` — the entry is judged stale (the comparison is a strict
less-than) and a call at that instant invokes the fetch function. -/
theorem C9_exact_boundary_is_stale {α : Type} (s : WeatherAPI α)
    (now : Int) (city : String) (e : CacheEntry α) (fetch : Option α)
    (hget : dictGet ("current_" ++ pyLower city) s.cache = some e)
    (hb : now - e.timestamp = s.cache_duration) :
    s.is_cache_valid now ("current_" ++ pyLower city) = false ∧
    (s.get_current_weather now city fetch).2.2 = true := by
  have hinv : s.is_cache_valid now ("current_" ++ pyLower city) = false :=
    is_cache_valid_eq_false_of_expired hget (le_of_eq hb.symm)
  exact ⟨hinv, get_current_weather_fetches_of_invalid fetch hinv⟩

/-- C10: frame property of a lookup — `get_current_weather` for `city`
leaves every cache entry under any other key exactly as it was. -/
theorem C10_lookup_frame_other_keys_unchanged {α : Type}
    (s : WeatherAPI α) (now : Int) (city k : String) (fetch : Option α)
    (hk : k ≠ "current_" ++ pyLower city) :
    dictGet k (s.get_current_weather now city fetch).2.1.cache =
      dictGet k s.cache := by
  rcases get_current_weather_state_cases s now city fetch with h | ⟨v, hv, h⟩
  · rw [h]
  · rw [h]
    exact dictGet_insert_ne _ _ hk

/-! ### Concrete instances discharging the hypotheses of the theorems -/

/-- A sample client state holding one entry, captured at time 0, under
the key for the city Paris. -/
def sampleState : WeatherAPI Nat :=
  { api_key := "key0"
    base_url := "url0"
    cache := [("current_paris", ⟨7, 0⟩)]
    cache_duration := 600 }

/-- Concrete instance of the C1 theorem: fetch at t = 0, second call at
t = 300 inside the 600-second window. -/
theorem C1_witness :
    ((WeatherAPI.init Nat "k1").get_current_weather 0 "Paris" (some 7)).1 =
      some 7 ∧
    ((WeatherAPI.init Nat "k1").get_current_weather 0 "Paris"
        (some 7)).2.1.get_current_weather 300 "Paris" (some 8) =
      (some 7,
        ((WeatherAPI.init Nat "k1").get_current_weather 0 "Paris"
          (some 7)).2.1,
        false) ∧
    ((WeatherAPI.init Nat "k1").get_forecast 0 "Paris" (some 7)).1 =
      some 7 ∧
    ((WeatherAPI.init Nat "k1").get_forecast 0 "Paris"
        (some 7)).2.1.get_forecast 300 "Paris" (some 8) =
      (some 7,
        ((WeatherAPI.init Nat "k1").get_forecast 0 "Paris" (some 7)).2.1,
        false) :=
  C1_second_call_within_window_uses_cache (WeatherAPI.init Nat "k1") 0 300
    "Paris" 7 (some 8) rfl rfl (by decide) (by decide)

/-- Concrete instance of the C2 theorem: the entry is 600 seconds old at
the second call, which therefore fetches. -/
theorem C2_witness :
    (sampleState.get_current_weather 600 "Paris" (some 9)).2.2 = true :=
  C2_expired_entry_refetches sampleState 600 "Paris" ⟨7, 0⟩ (some 9) rfl
    (by decide)

/-- Concrete instance of the C3 theorem: a failing fetch on an empty
cache returns none and leaves the state untouched. -/
theorem C3_witness :
    (WeatherAPI.init Nat "k3").get_current_weather 0 "Paris" none =
      (none, WeatherAPI.init Nat "k3", true) :=
  C3_fetch_failure_returns_none_and_preserves_cache
    (WeatherAPI.init Nat "k3") 0 "Paris" rfl

/-- Concrete instance of the amended C4 theorem: with no entry for the
key, the call fetches. -/
theorem C4_amended_witness :
    ((WeatherAPI.init Nat "k4").get_current_weather 0 "Rome"
        (some 3)).2.2 = true :=
  C4_amended_absent_key_invokes_fetch (WeatherAPI.init Nat "k4") 0 "Rome"
    (some 3) rfl

/-- Concrete instance of the C6 theorem on the sample state. -/
theorem C6_witness :
    ((sampleState.get_current_weather 5 "Paris"
        (some 9)).2.1.cache.map Prod.fst).Nodup ∧
    ((sampleState.get_forecast 5 "Paris"
        (some 9)).2.1.cache.map Prod.fst).Nodup ∧
    (⟨7, 0⟩ : CacheEntry Nat).timestamp ≤
      (⟨7, 0⟩ : CacheEntry Nat).timestamp ∧
    (⟨7, 0⟩ : CacheEntry Nat).timestamp ≤
      (⟨7, 0⟩ : CacheEntry Nat).timestamp :=
  C6_refresh_overwrites_in_place_and_timestamp_monotone sampleState 5
    "Paris" "current_paris" ⟨7, 0⟩ ⟨7, 0⟩ ⟨7, 0⟩ (some 9) (by decide) rfl
    (by decide) rfl rfl

/-- Concrete instance of the amended C7 theorem with the case variants
Paris and PARIS. -/
theorem C7_amended_witness :
    ("current_" ++ pyLower "Paris" = "current_" ++ pyLower "PARIS") ∧
    ((WeatherAPI.init Nat "k7").get_current_weather 0 "Paris"
        (some 7)).2.1.get_current_weather 300 "PARIS" (some 8) =
      (some 7,
        ((WeatherAPI.init Nat "k7").get_current_weather 0 "Paris"
          (some 7)).2.1,
        false) :=
  C7_amended_case_variants_share_slot (WeatherAPI.init Nat "k7") 0 300
    "Paris" "PARIS" 7 (some 8) (by decide) rfl (by decide)

/-- Concrete instance of the C9 theorem: elapsed time exactly 600
seconds, equal to the window. -/
theorem C9_witness :
    sampleState.is_cache_valid 600 ("current_" ++ pyLower "Paris") =
      false ∧
    (sampleState.get_current_weather 600 "Paris" (some 9)).2.2 = true :=
  C9_exact_boundary_is_stale sampleState 600 "Paris" ⟨7, 0⟩ (some 9) rfl
    (by decide)

/-- Concrete instance of the C10 theorem: a current-weather lookup for
Paris leaves the entry under another key unchanged. -/
theorem C10_witness :
    dictGet "forecast_paris"
        (sampleState.get_current_weather 0 "Paris" (some 9)).2.1.cache =
      dictGet "forecast_paris" sampleState.cache :=
  C10_lookup_frame_other_keys_unchanged sampleState 0 "Paris"
    "forecast_paris" (some 9) (by decide)
